import Mathlib

/-!
Shallow embedding of the sonic-sol2 transfer tool (Go, several program
variants) and verification of its specification claims.

The repository contains five `package main` variants: three in `main.go`
and two in `src/unnamed/part_000`.  The embedding below models, from the
source:

* the credential loaders `readPrivateKeys` / `readHeaders` (per-line trim,
  blank-line drop, empty-list error, count-match check);
* the transfer-amount clamp and lamport conversion (rational arithmetic
  stands in for exact real-valued arithmetic on the parsed amount);
* the per-wallet balance gate, both in the skip (`continue`) variants and
  in the `log.Fatalf` variant, with the 64-bit wraparound of
  `solAmount * uint64(addressCount)` made explicit;
* the per-address transfer goroutine: blockhash-fetch retry loop,
  transaction build/sign, submission retry loop, driven by traces of RPC
  call outcomes;
* the random-amount computation of the jittered variants;
* the response handling of `claimReward`, in both the plain and the
  status-code-checked variant.
-/

/-! ## Credential loaders (readPrivateKeys / readHeaders) -/

/-- Go's `strings.TrimSpace`: drop leading and trailing whitespace from a
line, modelled executably over the character list of the string. -/
def trimSpace (s : String) : String :=
  ⟨((s.data.dropWhile Char.isWhitespace).reverse.dropWhile Char.isWhitespace).reverse⟩

/-- The scanner loop shared by `readPrivateKeys` and `readHeaders`
(`main.go` lines 42-48, 349-355; `part_000` lines 45-51, 71-77): trim each
line, keep it when non-blank, in order. -/
def collectNonBlank : List String → List String
  | [] => []
  | line :: rest =>
    let s := trimSpace line
    if s ≠ "" then s :: collectNonBlank rest else collectNonBlank rest

/-- `readPrivateKeys` of `main.go` lines 34-58 and `part_000` lines 37-61,
over the list of lines of the file: collect trimmed non-blank lines and
fail when none remain. -/
def readPrivateKeys (lines : List String) : Except String (List String) :=
  let privateKeys := collectNonBlank lines
  if privateKeys.length = 0 then
    Except.error ("No wallets found in pk.txt file")
  else
    Except.ok privateKeys

/-- `readHeaders` of `main.go` lines 341-365 and `part_000` lines 63-87:
same loop as `readPrivateKeys`, different error message. -/
def readHeaders (lines : List String) : Except String (List String) :=
  let headers := collectNonBlank lines
  if headers.length = 0 then
    Except.error ("No headers found in header.txt file")
  else
    Except.ok headers

/-- The auth-file setup phase of the second `main.go` variant (lines
462-488) and of the first `part_000` variant (lines 198-224), with the
operator answering `y`: load keys, load headers, abort when the counts
differ.  Transfers only start from a successful setup. -/
def setupWithAuth (pkLines headerLines : List String) :
    Except String (List String × List String) :=
  match readPrivateKeys pkLines with
  | Except.error e => Except.error e
  | Except.ok pks =>
    match readHeaders headerLines with
    | Except.error e => Except.error e
    | Except.ok hs =>
      if pks.length ≠ hs.length then
        Except.error ("Number of private keys and headers don't match")
      else
        Except.ok (pks, hs)

/-- Condition of the in-loop dead branch `privateKeyBase58 == ""`
(`main.go` lines 124-127, 539-542; `part_000` lines 257-260, 689-692). -/
def emptyKeyBranch (k : String) : Bool := k == ""

lemma collectNonBlank_eq (lines : List String) :
    collectNonBlank lines = (lines.map trimSpace).filter (fun s => s != "") := by
  induction lines with
  | nil => rfl
  | cons line rest ih =>
    by_cases h : (trimSpace line) = ""
    · simp [collectNonBlank, h, List.filter, ih]
    · have hb : ((trimSpace line) != "") = true := by simpa using h
      simp [collectNonBlank, h, List.filter, ih, hb]

lemma collectNonBlank_ne_empty (lines : List String) :
    ∀ k ∈ collectNonBlank lines, k ≠ "" := by
  induction lines with
  | nil => intro k hk; cases hk
  | cons line rest ih =>
    intro k hk
    by_cases h : (trimSpace line) = ""
    · rw [collectNonBlank, if_neg (by simpa using h)] at hk
      exact ih k hk
    · rw [collectNonBlank, if_pos h, List.mem_cons] at hk
      rcases hk with hk | hk
      · exact hk ▸ h
      · exact ih k hk

/-! ## Transfer amount: minimum clamp and lamport conversion

The interactive variants (`main.go` lines 68-88, 490-509) parse the
operator's transfer amount, clamp it up to `minSolAmount = 0.001` when
below it, and convert to lamports by `uint64(amount * 1_000_000_000)`
(truncation).  The jittered variants (`part_000` lines 26-30, 306-308,
734-735) instead draw `minSolAmount + rand.Float64()*(maxSolAmount-minSolAmount)`
with `maxSolAmount = 0.01` and `rand.Float64()` uniform in `[0,1)`.
Amounts are modelled as exact rationals. -/

/-- The constant `minSolAmount = 0.001` (`main.go` line 68, `part_000`
line 28). -/
def minSolAmount : ℚ := 1 / 1000

/-- The constant `maxSolAmount = 0.01` (`part_000` lines 29, 406). -/
def maxSolAmount : ℚ := 1 / 100

/-- The clamp `if amount < minSolAmount { amount = minSolAmount }`
(`main.go` lines 83-86, 504-507). -/
def clampAmount (amount : ℚ) : ℚ :=
  if amount < minSolAmount then minSolAmount else amount

/-- The conversion `uint64(amount * 1_000_000_000)` (`main.go` lines 88,
509; `part_000` lines 308, 735): Go float-to-uint64 conversion truncates
toward zero. -/
def lamportsOfSol (amount : ℚ) : ℕ := ⌊amount * 1000000000⌋₊

/-- The jittered amount `minSolAmount + rand.Float64()*(maxSolAmount-minSolAmount)`
of `part_000` lines 307 and 734, as a function of the value `r` returned
by the uniform random source. -/
def randomAmount (r : ℚ) : ℚ := minSolAmount + r * (maxSolAmount - minSolAmount)

/-- The lamport amount actually placed in the transfer instruction of the
random-amount variants (`part_000` lines 307-308 and 734-735). -/
def randomLamports (r : ℚ) : ℕ := lamportsOfSol (randomAmount r)

/-! ## Per-wallet balance gate

`main.go` lines 129-155 (first variant) and 548-572 (second variant):
fetch the wallet's balance, `continue` to the next wallet when it is zero
or below `requiredBalance := solAmount * uint64(addressCount)`; otherwise
generate `addressCount` addresses and launch one transfer goroutine per
address.  The third variant (`main.go` lines 723-747) performs the same
two checks but calls `log.Fatalf`, which terminates the whole process,
so later wallets are never reached.  The balance lists below stand for
the successively fetched wallet balances. -/

/-- `requiredBalance := solAmount * uint64(addressCount)` (`main.go`
lines 148, 565, 737): a Go `uint64` product, i.e. the mathematical
product reduced modulo `2^64`. -/
def requiredBalance (solAmount addressCount : ℕ) : ℕ :=
  (solAmount * addressCount) % 2 ^ 64

/-- The gate outcome: `true` when the wallet is not skipped by the
`balance < requiredBalance` check (`main.go` lines 149-155, 566-572). -/
def balanceSufficient (balance solAmount addressCount : ℕ) : Bool :=
  if balance < requiredBalance solAmount addressCount then false else true

/-- What a funding-wallet iteration of the outer loop does.  `processed n t`
records that `n` fresh destination addresses were generated and `t`
transfer tasks launched for that wallet. -/
inductive WalletOutcome where
  | skippedZero
  | skippedInsufficient
  | processed (addressesGenerated tasksLaunched : ℕ)
  | fatalZero
  | fatalInsufficient
deriving DecidableEq

/-- Number of destination addresses generated for a wallet outcome. -/
def addressesGenerated : WalletOutcome → ℕ
  | WalletOutcome.processed n _ => n
  | _ => 0

/-- Number of transfer tasks launched for a wallet outcome. -/
def tasksLaunched : WalletOutcome → ℕ
  | WalletOutcome.processed _ t => t
  | _ => 0

/-- One iteration of the wallet loop in the skip variants (`main.go`
lines 129-162 and 548-579): zero balance and insufficient balance each
`continue`; otherwise `addressCount` addresses are generated and as many
goroutines launched. -/
def processWallet (solAmount addressCount balance : ℕ) : WalletOutcome :=
  if balance = 0 then WalletOutcome.skippedZero
  else if balance < requiredBalance solAmount addressCount then
    WalletOutcome.skippedInsufficient
  else WalletOutcome.processed addressCount addressCount

/-- The wallet loop of the first two `main.go` variants over the fetched
balances: every wallet is visited, skipped ones contribute a skip
outcome, and the loop continues with the remaining wallets. -/
def processWallets (solAmount addressCount : ℕ) : List ℕ → List WalletOutcome
  | [] => []
  | b :: rest =>
    processWallet solAmount addressCount b ::
      processWallets solAmount addressCount rest

/-- The wallet loop of the third `main.go` variant (lines 717-740), whose
balance gate uses `log.Fatalf`: a zero or insufficient balance terminates
the whole process, so no further wallet is visited. -/
def processWalletsFatal (solAmount addressCount : ℕ) : List ℕ → List WalletOutcome
  | [] => []
  | b :: rest =>
    if b = 0 then [WalletOutcome.fatalZero]
    else if b < requiredBalance solAmount addressCount then
      [WalletOutcome.fatalInsufficient]
    else
      WalletOutcome.processed addressCount addressCount ::
        processWalletsFatal solAmount addressCount rest

/-! ## Per-address transfer goroutine

The goroutine body of `main.go` lines 166-218 (identical in lines 583-634
and `part_000` lines 292-347, 720-774):

```
for {                                   // outer loop
    for { GetLatestBlockhash; if ok break; sleep }   // fetch retry loop
    build instruction, message
    tx, err := NewTransaction(...)
    if err != nil { continue }          // back to the outer loop
    for { SendTransaction(tx); if ok { log success; break }; sleep }
    break
}
```

The environment is modelled by three traces of call outcomes: one answer
per successive `GetLatestBlockhash` call, per `NewTransaction` call, and
per `SendTransaction` call.  Each successful blockhash fetch is
identified by the index of the fetch call that returned it, so the
transaction submitted by a `SendTransaction` call can be identified by
the blockhash it was signed against. -/

/-- Outcome of one RPC or SDK call, as the code observes it (`err == nil`
or not). -/
inductive RpcOutcome where
  | fail
  | ok
deriving DecidableEq

/-- Observable record of a terminated transfer task: how many
`GetLatestBlockhash` calls it made, how many `NewTransaction` (build and
sign) calls, the blockhash identity of the transaction submitted at each
`SendTransaction` call, and how many success log records it produced. -/
structure TaskRun where
  fetchCalls : ℕ
  signCalls : ℕ
  attempts : List ℕ
  successRecords : ℕ
deriving DecidableEq

/-- The inner blockhash retry loop (`main.go` lines 171-178): call
`GetLatestBlockhash` until one call succeeds.  `n` counts fetch calls
made so far; the result is the updated call count, the identity of the
fetched blockhash, and the unconsumed fetch trace.  `none` means the
trace ended with the loop still spinning. -/
def fetchLoop : List RpcOutcome → ℕ → Option (ℕ × ℕ × List RpcOutcome)
  | [], _ => none
  | RpcOutcome.ok :: rest, n => some (n + 1, n, rest)
  | RpcOutcome.fail :: rest, n => fetchLoop rest (n + 1)

/-- The submission retry loop (`main.go` lines 202-216): call
`SendTransaction` with the already-built transaction `txBh` until one
call succeeds, recording the transaction submitted at each attempt.
`none` means the trace ended with the loop still spinning. -/
def sendLoop (txBh : ℕ) : List RpcOutcome → Option (List ℕ)
  | [] => none
  | RpcOutcome.ok :: _ => some [txBh]
  | RpcOutcome.fail :: rest => Option.map (fun ts => txBh :: ts) (sendLoop txBh rest)

/-- The outer goroutine loop (`main.go` lines 168-218) driven by the
three traces.  `fc` and `sc` count fetch and sign calls made so far.
The task terminates (returns `some`) exactly when it reaches the final
`break`, which is only after a successful submission. -/
def runTask (fetches : List RpcOutcome) (creates : List RpcOutcome)
    (sends : List RpcOutcome) (fc sc : ℕ) : Option TaskRun :=
  match creates with
  | [] =>
    match fetchLoop fetches fc with
    | none => none
    | some _ => none
  | RpcOutcome.fail :: creates2 =>
    match fetchLoop fetches fc with
    | none => none
    | some (fc2, _, fetches2) => runTask fetches2 creates2 sends fc2 (sc + 1)
  | RpcOutcome.ok :: _ =>
    match fetchLoop fetches fc with
    | none => none
    | some (fc2, bh, _) =>
      match sendLoop bh sends with
      | none => none
      | some ts => some ⟨fc2, sc + 1, ts, 1⟩

/-! ## claimReward response handling

`claimReward` of the second `main.go` variant (lines 409-458) reads the
response body, parses it as JSON, reports "Already claimed" when the
`code` field equals `100015`, reports a claim success when the `status`
field is `"success"`, and otherwise reports a failure.  The `part_000`
variants (lines 132-192 and 581-639) additionally return with an
"Unexpected status code" report whenever the HTTP status is not 200,
before looking at the body at all. -/

/-- The parts of an HTTP claim response the handler inspects: the status
code, the parsed `code` field (a JSON number, if present) and the parsed
`status` field (a JSON string, if present). -/
structure ClaimResponse where
  statusCode : ℕ
  code : Option ℚ
  status : Option String
deriving DecidableEq

/-- What `claimReward` prints for a given stage and response. -/
inductive ClaimReport where
  | alreadyClaimed (stage : ℕ)
  | claimed (stage : ℕ)
  | failed (stage : ℕ)
  | unexpectedStatusCode (sc : ℕ)
deriving DecidableEq

/-- A report class the operator reads as success: either the milestone
was claimed now or it had already been claimed. -/
def ClaimReport.isSuccessLike : ClaimReport → Bool
  | ClaimReport.alreadyClaimed _ => true
  | ClaimReport.claimed _ => true
  | _ => false

/-- Response handling of `claimReward` in the second `main.go` variant
(lines 448-457): no status-code check, sentinel `code == 100015` first,
then `status == "success"`. -/
def claimRewardReport (stage : ℕ) (resp : ClaimResponse) : ClaimReport :=
  if resp.code = some 100015 then ClaimReport.alreadyClaimed stage
  else if resp.status = some ("success") then ClaimReport.claimed stage
  else ClaimReport.failed stage

/-- Response handling of `claimReward` in the `part_000` variants (lines
171-191 and 618-638): any non-200 HTTP status is reported as an
unexpected status code before the body is interpreted. -/
def claimRewardReportChecked (stage : ℕ) (resp : ClaimResponse) : ClaimReport :=
  if resp.statusCode ≠ 200 then ClaimReport.unexpectedStatusCode resp.statusCode
  else if resp.code = some 100015 then ClaimReport.alreadyClaimed stage
  else if resp.status = some ("success") then ClaimReport.claimed stage
  else ClaimReport.failed stage

/-! ## Helper lemmas about the trace model -/

lemma fetchLoop_schedule (a n : ℕ) :
    fetchLoop (List.replicate a RpcOutcome.fail ++ [RpcOutcome.ok]) n
      = some (n + a + 1, n + a, []) := by
  induction a generalizing n with
  | zero => rfl
  | succ a ih =>
    rw [List.replicate_succ, List.cons_append]
    show fetchLoop (List.replicate a RpcOutcome.fail ++ [RpcOutcome.ok]) (n + 1)
      = some (n + (a + 1) + 1, n + (a + 1), [])
    rw [ih]
    congr 1
    simp [Nat.add_assoc, Nat.add_comm 1 a]

lemma sendLoop_schedule (bh b : ℕ) :
    sendLoop bh (List.replicate b RpcOutcome.fail ++ [RpcOutcome.ok])
      = some (List.replicate (b + 1) bh) := by
  induction b with
  | zero => rfl
  | succ b ih =>
    rw [List.replicate_succ, List.cons_append]
    show Option.map (fun ts => bh :: ts)
      (sendLoop bh (List.replicate b RpcOutcome.fail ++ [RpcOutcome.ok]))
      = some (List.replicate (b + 1 + 1) bh)
    rw [ih]
    simp [List.replicate_succ]

lemma sendLoop_mem_ok {bh : ℕ} {sends : List RpcOutcome} {ts : List ℕ}
    (h : sendLoop bh sends = some ts) : RpcOutcome.ok ∈ sends := by
  induction sends generalizing ts with
  | nil => cases h
  | cons s rest ih =>
    cases s with
    | ok => exact List.mem_cons_self _ _
    | fail =>
      rw [sendLoop] at h
      cases hrec : sendLoop bh rest with
      | none => rw [hrec] at h; cases h
      | some ts2 => exact List.mem_cons_of_mem _ (ih hrec)

lemma runTask_some {fetches creates sends : List RpcOutcome} {fc sc : ℕ}
    {r : TaskRun} (h : runTask fetches creates sends fc sc = some r) :
    r.successRecords = 1 ∧ RpcOutcome.ok ∈ sends := by
  induction creates generalizing fetches fc sc with
  | nil =>
    rw [runTask] at h
    cases hf : fetchLoop fetches fc with
    | none => rw [hf] at h; cases h
    | some v => rw [hf] at h; cases h
  | cons c creates2 ih =>
    cases c with
    | fail =>
      rw [runTask] at h
      cases hf : fetchLoop fetches fc with
      | none => rw [hf] at h; cases h
      | some v =>
        obtain ⟨fc2, bh, fetches2⟩ := v
        rw [hf] at h
        dsimp only at h
        exact ih h
    | ok =>
      rw [runTask] at h
      cases hf : fetchLoop fetches fc with
      | none => rw [hf] at h; cases h
      | some v =>
        obtain ⟨fc2, bh, fetches2⟩ := v
        rw [hf] at h
        dsimp only at h
        cases hs : sendLoop bh sends with
        | none => rw [hs] at h; cases h
        | some ts =>
          rw [hs] at h
          dsimp only at h
          refine ⟨?_, sendLoop_mem_ok hs⟩
          cases h
          rfl

lemma runTask_schedule (a b : ℕ) :
    runTask (List.replicate a RpcOutcome.fail ++ [RpcOutcome.ok])
      [RpcOutcome.ok] (List.replicate b RpcOutcome.fail ++ [RpcOutcome.ok]) 0 0
      = some ⟨a + 1, 1, List.replicate (b + 1) a, 1⟩ := by
  rw [runTask, fetchLoop_schedule]
  simp [sendLoop_schedule]

/-! ## Claim theorems -/

/-- C2: `readPrivateKeys` applied to a file whose every line is blank
after per-line whitespace trimming returns the "no wallets found" error;
applied to a file with non-blank lines it returns exactly the trimmed
non-blank lines in the original line order — hence exactly N entries for
N non-blank lines. -/
theorem readPrivateKeys_spec (lines : List String) :
    ((∀ l ∈ lines, (trimSpace l) = "") →
      readPrivateKeys lines = Except.error ("No wallets found in pk.txt file"))
    ∧ (∀ ks, readPrivateKeys lines = Except.ok ks →
        ks = (lines.map trimSpace).filter (fun s => s != "")
        ∧ ks.length = (lines.filter (fun l => (trimSpace l) != "")).length) := by
  have hfil : ((lines.map trimSpace).filter (fun s => s != "")).length
      = (lines.filter (fun l => (trimSpace l) != "")).length := by
    induction lines with
    | nil => rfl
    | cons l rest ih =>
      by_cases h : (trimSpace l) = ""
      · simp [List.filter, h, ih]
      · have hb : ((trimSpace l) != "") = true := by simpa using h
        simp [List.filter, hb, ih]
  constructor
  · intro hblank
    have hnil : collectNonBlank lines = [] := by
      rw [collectNonBlank_eq, List.filter_eq_nil_iff]
      intro s hs
      rcases List.mem_map.mp hs with ⟨l, hl, rfl⟩
      simp [hblank l hl]
    simp [readPrivateKeys, hnil]
  · intro ks hk
    rw [readPrivateKeys] at hk
    by_cases hlen : (collectNonBlank lines).length = 0
    · simp [hlen] at hk
    · simp only [hlen, if_false] at hk
      have hks : ks = collectNonBlank lines := by
        cases hk
        rfl
      rw [hks, collectNonBlank_eq]
      exact ⟨rfl, hfil⟩

/-- Witness for the C2 theorem at concrete key files: a file of blank
lines errors, and a file with two non-blank lines among blanks loads
exactly those two lines, trimmed, in order. -/
theorem readPrivateKeys_spec_witness :
    readPrivateKeys ["  ", ""] = Except.error ("No wallets found in pk.txt file")
    ∧ (["a", "b"] : List String)
        = (([" a ", "", "b "].map trimSpace).filter (fun s => s != ""))
    ∧ (["a", "b"] : List String).length
        = ([" a ", "", "b "].filter (fun l => (trimSpace l) != "")).length :=
  ⟨(readPrivateKeys_spec ["  ", ""]).1 (by decide),
   ((readPrivateKeys_spec [" a ", "", "b "]).2 ["a", "b"] (by rfl)).1,
   ((readPrivateKeys_spec [" a ", "", "b "]).2 ["a", "b"] (by rfl)).2⟩

/-- C10: every string in a successful `readPrivateKeys` result is
non-empty, so the in-loop `privateKeyBase58 == ""` branch in `main` is
never taken for any loaded key list. -/
theorem loaded_keys_nonempty (lines ks : List String)
    (h : readPrivateKeys lines = Except.ok ks) :
    ∀ k ∈ ks, emptyKeyBranch k = false := by
  intro k hk
  have hks : ks = collectNonBlank lines := by
    rw [readPrivateKeys] at h
    by_cases hlen : (collectNonBlank lines).length = 0
    · simp [hlen] at h
    · simp only [hlen, if_false] at h
      cases h
      rfl
  have hne := collectNonBlank_ne_empty lines k (hks ▸ hk)
  simp [emptyKeyBranch, hne]

/-- Witness for the C10 theorem at a concrete one-key file. -/
theorem loaded_keys_nonempty_witness : emptyKeyBranch ("abc") = false :=
  loaded_keys_nonempty [("abc")] [("abc")] (by rfl) ("abc") (by simp)

/-- C4: with the bearer-token option taken, a header file whose loaded
line count differs from the key file's loaded line count always aborts
the run before any transfer, regardless of which of the two is longer. -/
theorem header_mismatch_aborts (pkLines headerLines pks hs : List String)
    (hpk : readPrivateKeys pkLines = Except.ok pks)
    (hh : readHeaders headerLines = Except.ok hs)
    (hne : pks.length ≠ hs.length) :
    setupWithAuth pkLines headerLines
      = Except.error ("Number of private keys and headers don't match") := by
  rw [setupWithAuth, hpk, hh]
  simp [hne]

/-- Witness for the C4 theorem: two keys against one header (and, by the
theorem's symmetry in the hypothesis, any other mismatch) aborts. -/
theorem header_mismatch_witness :
    setupWithAuth ["k1", "k2"] ["h1"]
      = Except.error ("Number of private keys and headers don't match") :=
  header_mismatch_aborts ["k1", "k2"] ["h1"] ["k1", "k2"] ["h1"]
    (by rfl) (by rfl) (by decide)

/-- C5: a parsed transfer amount strictly below the 0.001 minimum is
replaced by exactly the minimum — every transfer then carries exactly
1,000,000 lamports — and an amount at or above the minimum is used
unchanged. -/
theorem transfer_amount_clamped (a : ℚ) :
    (a < minSolAmount → clampAmount a = minSolAmount
        ∧ lamportsOfSol (clampAmount a) = 1000000)
    ∧ (minSolAmount ≤ a → clampAmount a = a) := by
  constructor
  · intro h
    have hc : clampAmount a = minSolAmount := by rw [clampAmount, if_pos h]
    refine ⟨hc, ?_⟩
    rw [hc, lamportsOfSol, minSolAmount]
    norm_num
  · intro h
    rw [clampAmount, if_neg (not_lt.mpr h)]

/-- Witness for the C5 theorem: 0.0005 SOL is clamped to the minimum and
becomes 1,000,000 lamports; 0.5 SOL passes through unchanged. -/
theorem transfer_amount_clamped_witness :
    (clampAmount (1 / 2000) = minSolAmount
      ∧ lamportsOfSol (clampAmount (1 / 2000)) = 1000000)
    ∧ clampAmount (1 / 2) = 1 / 2 :=
  ⟨(transfer_amount_clamped (1 / 2000)).1 (by rw [minSolAmount]; norm_num),
   (transfer_amount_clamped (1 / 2)).2 (by rw [minSolAmount]; norm_num)⟩

/-- C8: in the random-amount variants, for every value r in [0,1)
returned by the uniform source, the constructed lamport amount lies in
the half-open range [1,000,000, 10,000,000). -/
theorem random_lamports_range (r : ℚ) (h0 : 0 ≤ r) (h1 : r < 1) :
    1000000 ≤ randomLamports r ∧ randomLamports r < 10000000 := by
  have hx : randomAmount r * 1000000000 = 1000000 + r * 9000000 := by
    rw [randomAmount, minSolAmount, maxSolAmount]; ring
  constructor
  · rw [randomLamports, lamportsOfSol]
    apply Nat.le_floor
    rw [hx]
    push_cast
    nlinarith
  · rw [randomLamports, lamportsOfSol]
    have hpos : (0 : ℚ) ≤ randomAmount r * 1000000000 := by
      rw [hx]; nlinarith
    rw [Nat.floor_lt hpos, hx]
    push_cast
    nlinarith

/-- Witness for the C8 theorem at the draw r = 1/2. -/
theorem random_lamports_witness :
    1000000 ≤ randomLamports (1 / 2) ∧ randomLamports (1 / 2) < 10000000 :=
  random_lamports_range (1 / 2) (by norm_num) (by norm_num)

/-- C9: `requiredBalance` is the 64-bit wraparound product.  Whenever the
mathematical product `solAmount * addressCount` is below 2^64, the gate
decides exactly `balance ≥ solAmount * addressCount`; but there are
inputs whose mathematical product is at least 2^64 where a wallet whose
balance is far below the true required total still passes the gate. -/
theorem required_balance_wraparound (balance sa ac : ℕ) (h : sa * ac < 2 ^ 64) :
    (balanceSufficient balance sa ac = true ↔ sa * ac ≤ balance)
    ∧ ∃ b sa2 ac2 : ℕ, 2 ^ 64 ≤ sa2 * ac2 ∧ b < sa2 * ac2
        ∧ balanceSufficient b sa2 ac2 = true := by
  constructor
  · rw [balanceSufficient, requiredBalance, Nat.mod_eq_of_lt h]
    by_cases hb : balance < sa * ac
    · rw [if_pos hb]
      simp only [Bool.false_eq_true, false_iff]
      omega
    · rw [if_neg hb]
      simp only [true_iff]
      omega
  · refine ⟨1, 2 ^ 32, 2 ^ 32, ?_, ?_, ?_⟩
    · norm_num
    · norm_num
    · rw [balanceSufficient, requiredBalance]
      norm_num

/-- Witness for the C9 theorem at a concrete in-range product. -/
theorem required_balance_witness :
    (balanceSufficient 5000000 1000000 3 = true ↔ 1000000 * 3 ≤ 5000000)
    ∧ ∃ b sa2 ac2 : ℕ, 2 ^ 64 ≤ sa2 * ac2 ∧ b < sa2 * ac2
        ∧ balanceSufficient b sa2 ac2 = true :=
  required_balance_wraparound 5000000 1000000 3 (by norm_num)

/-- C3 counterexample: in the third `main.go` variant the balance gate
calls `log.Fatalf`, which terminates the whole process.  With two
wallets whose fetched balances are 0 and 1 SOL, the run aborts at the
first wallet and records nothing for the second — even though the second
on its own would be processed — contradicting the claim that the program
skips the wallet and continues with the remaining wallets. -/
theorem balance_gate_fatal_counterexample :
    processWalletsFatal 300000 1 [0, 1000000000] = [WalletOutcome.fatalZero]
    ∧ processWalletsFatal 300000 1 [1000000000]
        = [WalletOutcome.processed 1 1] := by
  constructor
  · rfl
  · rw [processWalletsFatal]
    norm_num [requiredBalance]
    rfl

/-- C3 (amended): in the first two `main.go` variants a wallet with zero
balance — or with balance below the wrapped product
`solAmount * uint64(addressCount)` — is skipped with no addresses
generated and no tasks launched, and the remaining wallets are still
processed; in the third (`log.Fatalf`) variant such a wallet aborts the
entire run, so exactly one outcome is recorded however many wallets
remain. -/
theorem balance_gate_skips_wallet (sa ac b : ℕ) (rest : List ℕ)
    (h : b = 0 ∨ b < requiredBalance sa ac) :
    (∃ o, processWallets sa ac (b :: rest) = o :: processWallets sa ac rest
       ∧ addressesGenerated o = 0 ∧ tasksLaunched o = 0)
    ∧ (processWalletsFatal sa ac (b :: rest)).length = 1 := by
  by_cases hb : b = 0
  · subst hb
    refine ⟨⟨WalletOutcome.skippedZero, ?_, rfl, rfl⟩, ?_⟩
    · simp [processWallets, processWallet]
    · simp [processWalletsFatal]
  · have hlt : b < requiredBalance sa ac := h.resolve_left hb
    refine ⟨⟨WalletOutcome.skippedInsufficient, ?_, rfl, rfl⟩, ?_⟩
    · simp [processWallets, processWallet, hb, hlt]
    · simp [processWalletsFatal, hb, hlt]

/-- Witness for the amended C3 theorem: a zero-balance wallet followed by
another wallet. -/
theorem balance_gate_skips_witness :
    (∃ o, processWallets 300000 1 [0, 7] = o :: processWallets 300000 1 [7]
       ∧ addressesGenerated o = 0 ∧ tasksLaunched o = 0)
    ∧ (processWalletsFatal 300000 1 [0, 7]).length = 1 :=
  balance_gate_skips_wallet 300000 1 0 [7] (Or.inl rfl)

/-- C6 counterexample: in the status-code-checked `claimReward` variant,
a response whose JSON body carries the sentinel code 100015 but whose
HTTP status is 400 is reported as an unexpected status code — an
error-class report, not the already-claimed/success report the claim
promises for every such response. -/
theorem claim_sentinel_counterexample :
    claimRewardReportChecked 1
        { statusCode := 400, code := some 100015, status := some ("success") }
      = ClaimReport.unexpectedStatusCode 400
    ∧ ClaimReport.isSuccessLike (claimRewardReportChecked 1
        { statusCode := 400, code := some 100015, status := some ("success") })
      = false := by
  constructor
  · rfl
  · rfl

/-- C6 (amended): a response whose parsed body carries code 100015 is
reported as already claimed — a success-class report, never an error —
by the unchecked `claimReward` variant unconditionally, and by the
status-code-checked variant whenever the HTTP status is 200; in the
checked variant every non-200 response is reported as an unexpected
status code, regardless of its body and for every stage, before the
body is read.  All conjuncts hold for every stage. -/
theorem claim_sentinel_amended (stage : ℕ) (resp : ClaimResponse)
    (h : resp.code = some 100015) :
    claimRewardReport stage resp = ClaimReport.alreadyClaimed stage
    ∧ ClaimReport.isSuccessLike (claimRewardReport stage resp) = true
    ∧ (resp.statusCode = 200 →
        claimRewardReportChecked stage resp = ClaimReport.alreadyClaimed stage)
    ∧ ∀ (stage2 : ℕ) (resp2 : ClaimResponse), resp2.statusCode ≠ 200 →
        claimRewardReportChecked stage2 resp2
          = ClaimReport.unexpectedStatusCode resp2.statusCode := by
  have h1 : claimRewardReport stage resp = ClaimReport.alreadyClaimed stage := by
    rw [claimRewardReport, if_pos h]
  refine ⟨h1, by simp [h1, ClaimReport.isSuccessLike], ?_, ?_⟩
  · intro h200
    rw [claimRewardReportChecked, if_neg (by simp [h200]), if_pos h]
  · intro stage2 resp2 h2
    rw [claimRewardReportChecked, if_pos h2]

/-- Witness for the amended C6 theorem at stage 2 and a concrete 200
response carrying the sentinel code, with the universal non-200 conjunct
exercised at stage 3 and a concrete 500 response whose body carries
neither the sentinel code nor a success status. -/
theorem claim_sentinel_witness :
    claimRewardReport 2 { statusCode := 200, code := some 100015, status := none }
      = ClaimReport.alreadyClaimed 2
    ∧ ClaimReport.isSuccessLike (claimRewardReport 2
        { statusCode := 200, code := some 100015, status := none }) = true
    ∧ ((200 : ℕ) = 200 →
        claimRewardReportChecked 2
            { statusCode := 200, code := some 100015, status := none }
          = ClaimReport.alreadyClaimed 2)
    ∧ claimRewardReportChecked 3 { statusCode := 500, code := none, status := none }
        = ClaimReport.unexpectedStatusCode 500 :=
  ⟨(claim_sentinel_amended 2
      { statusCode := 200, code := some 100015, status := none } rfl).1,
   (claim_sentinel_amended 2
      { statusCode := 200, code := some 100015, status := none } rfl).2.1,
   (claim_sentinel_amended 2
      { statusCode := 200, code := some 100015, status := none } rfl).2.2.1,
   (claim_sentinel_amended 2
      { statusCode := 200, code := some 100015, status := none } rfl).2.2.2
     3 { statusCode := 500, code := none, status := none } (by decide)⟩

/-- C1: the transfer task terminates only after a submission succeeds.
Under any finite schedule of a blockhash-fetch failures and b submission
failures followed by one successful submission, the task terminates with
exactly one success record; and every terminating run, over every trace,
has exactly one success record and a successful SendTransaction call in
its consumed submission trace. -/
theorem transfer_terminates_only_after_success (a b : ℕ) :
    (∃ r, runTask (List.replicate a RpcOutcome.fail ++ [RpcOutcome.ok])
        [RpcOutcome.ok] (List.replicate b RpcOutcome.fail ++ [RpcOutcome.ok]) 0 0
        = some r ∧ r.successRecords = 1)
    ∧ ∀ fetches creates sends fc sc r,
        runTask fetches creates sends fc sc = some r →
        r.successRecords = 1 ∧ RpcOutcome.ok ∈ sends := by
  refine ⟨⟨_, runTask_schedule a b, rfl⟩, ?_⟩
  intro fetches creates sends fc sc r h
  exact runTask_some h

/-- Witness for the C1 theorem: the schedule with no fetch failure and
one submission failure before the success. -/
theorem transfer_terminates_witness :
    TaskRun.successRecords ⟨1, 1, [0, 0], 1⟩ = 1
    ∧ RpcOutcome.ok ∈ [RpcOutcome.fail, RpcOutcome.ok] :=
  (transfer_terminates_only_after_success 0 0).2 [RpcOutcome.ok] [RpcOutcome.ok]
    [RpcOutcome.fail, RpcOutcome.ok] 0 0 ⟨1, 1, [0, 0], 1⟩ rfl

/-- C7: between submission retries the loop never re-fetches the recent
blockhash and never re-signs.  Across any number b of submission
failures the task makes exactly a+1 blockhash fetches (all before the
send loop), signs exactly once, and each of the b+1 SendTransaction
calls submits the same already-signed transaction, bound to the single
fetched blockhash (identity a). -/
theorem submission_retry_reuses_signed_tx (a b : ℕ) :
    ∃ r, runTask (List.replicate a RpcOutcome.fail ++ [RpcOutcome.ok])
        [RpcOutcome.ok] (List.replicate b RpcOutcome.fail ++ [RpcOutcome.ok]) 0 0
        = some r
      ∧ r.fetchCalls = a + 1 ∧ r.signCalls = 1
      ∧ r.attempts = List.replicate (b + 1) a :=
  ⟨_, runTask_schedule a b, rfl, rfl, rfl⟩
